import Mathlib

/-!
Shallow embedding of the secure-partition setup routine `spm_sp_setup`
(services/std_svc/spm/spm_setup.c in the repository; `src/unnamed/part_000`).

The routine runs on AArch64, so machine integers are 64-bit unsigned
(`uintptr_t`, `u_register_t`, `size_t`); we model them as `Nat` with explicit
reduction modulo `2 ^ 64` at every operation where the C performs unsigned
wraparound arithmetic.

External collaborators (the platform port, the context-management primitive,
the translation-table library) are modelled as inputs: the values they hand
to `spm_sp_setup` are fields of `Platform`, and platform build-time constants
from `platform_def.h` (which is not part of the analysed sources) are fields
of `Config`.  The embedding is of the assertions-enabled build
(`ENABLE_ASSERTIONS`): every `assert` is a branch into an abort state.
-/

namespace Spm

/-- Machine-word modulus: the code runs on AArch64, where `uintptr_t`,
`size_t` and `u_register_t` are 64-bit. -/
def wordW : Nat := 2 ^ 64

/-- Unsigned 64-bit addition, as performed by the C code on `uintptr_t`. -/
def wadd (a b : Nat) : Nat := (a + b) % wordW

/-- Unsigned 64-bit subtraction (two's-complement wraparound). -/
def wsub (a b : Nat) : Nat := (a + wordW - b % wordW) % wordW

/-- Unsigned 64-bit multiplication. -/
def wmul (a b : Nat) : Nat := (a * b) % wordW

/-- `UINTPTR_MAX` on AArch64. -/
def UINTPTR_MAX : Nat := wordW - 1

/-- `MP_INFO_FLAG_PRIMARY_CPU`: bit 0 of the MP-info flags word
(services/secure_partition.h). -/
def MP_INFO_FLAG_PRIMARY_CPU : Nat := 1

/-- One `secure_partition_mp_info_t` record: affinity identifier (`mpidr`),
linear core index, and flag bitset. -/
structure MpInfo where
  mpidr : Nat
  linear_id : Nat
  flags : Nat
deriving Repr, DecidableEq

/-- One `secure_partition_boot_info_t` record.  `header` is an opaque
stand-in for all fields other than `num_cpus` and `mp_info` (the param
header and the memory-layout fields); the routine copies them verbatim and
never interprets them.  `mp_info` is the pointer field, `0` playing `NULL`. -/
structure BootInfo where
  header : Nat
  num_cpus : Nat
  mp_info : Nat
deriving Repr, DecidableEq

/-- Build-time platform constants consumed by `spm_sp_setup`
(from `platform_def.h`, `spm_shim_private.h` and the type sizes of
`services/secure_partition.h`; none of these headers are among the analysed
sources, so they stay symbolic). -/
structure Config where
  BL32_BASE : Nat
  PLAT_SPM_BUF_BASE : Nat
  PLAT_SPM_BUF_SIZE : Nat
  PLAT_SPM_COOKIE_0 : Nat
  PLAT_SPM_COOKIE_1 : Nat
  PLAT_SP_IMAGE_STACK_BASE : Nat
  PLAT_SP_IMAGE_STACK_PCPU_SIZE : Nat
  PLAT_SP_IMAGE_NS_BUF_BASE : Nat
  PLAT_SP_IMAGE_NS_BUF_SIZE : Nat
  PLATFORM_CORE_COUNT : Nat
  SPM_SHIM_EXCEPTIONS_PTR : Nat
  max_granule : Nat
  sizeof_boot_info : Nat
  sizeof_mp_info : Nat
  spsr_value : Nat
  param_head : Nat
deriving Repr, DecidableEq

/-- External collaborators of the routine.  `boot_info` is the record
returned by `plat_get_secure_partition_boot_info` (`none` = `NULL`);
`mp_mem a` is the `secure_partition_mp_info_t` record occupying memory at
byte address `a`; `plat_core_pos_by_mpidr` is the affinity-to-linear-index
lookup (already converted to the `unsigned int` the code stores);
`plat_my_core_pos` is the calling core's linear index; `sctlr_init` is the
value `cm_setup_context` left in the context's `SCTLR_EL1` slot;
`mmu_mair`, `mmu_tcr`, `mmu_ttbr0` are the values `setup_mmu_cfg` derives
into `mmu_cfg_params`. -/
structure Platform where
  boot_info : Option BootInfo
  mp_mem : Nat → MpInfo
  plat_core_pos_by_mpidr : Nat → Nat
  plat_my_core_pos : Nat
  sctlr_init : Nat
  mmu_mair : Nat
  mmu_tcr : Nat
  mmu_ttbr0 : Nat

/-- The MP-info records read from platform memory starting at address
`addr` (the source operand of the array `memcpy`): record `i` occupies the
bytes at `addr + i * sizeof(secure_partition_mp_info_t)`. -/
def mp_src_array (cfg : Config) (plat : Platform) (addr n : Nat) : List MpInfo :=
  (List.range n).map (fun i => plat.mp_mem (wadd addr (wmul i cfg.sizeof_mp_info)))

/-- One iteration of the annotation loop (lines 247-253): store the resolved
linear index and, when it equals the calling core's own linear index, OR the
primary-CPU flag into the record's flags. -/
def mp_annotate (plat : Platform) (r : MpInfo) : MpInfo :=
  let lid := plat.plat_core_pos_by_mpidr r.mpidr
  let r1 : MpInfo := { r with linear_id := lid }
  if plat.plat_my_core_pos = lid then
    { r1 with flags := r1.flags ||| MP_INFO_FLAG_PRIMARY_CPU }
  else r1

/-- The failure modes of the marshalling section: each constructor is one of
its `assert`s, in source order. -/
inductive MErr where
  | bootRecTooBig
  | baseSizeOverflow
  | bootInfoNull
  | mpInfoNull
  | tooManyCpus
  | mpArrayTooBig
deriving Repr, DecidableEq

/-- Observable trace of the marshalling section: `writes` lists the
`(start address, byte count)` extent of every store performed, in order
(the two `memcpy`s, then one extent per record touched by the annotation
loop); `srcAddr` is the address the MP-info array was read from; `bufBoot`
and `bufMp` are the buffer-resident boot record and MP-info array; `err` is
the first failed assertion, if any. -/
structure MTrace where
  writes : List (Nat × Nat)
  srcAddr : Option Nat
  bufBoot : Option BootInfo
  bufMp : Option (List MpInfo)
  err : Option MErr
deriving Repr, DecidableEq

/-- The Boot-Info Marshaller: lines 192-253 of `spm_sp_setup`.  Every
pointer computation is performed with 64-bit wraparound arithmetic exactly
as the unsigned C expressions do. -/
def spm_marshal (cfg : Config) (plat : Platform) : MTrace :=
  let shared_buf_ptr := cfg.PLAT_SPM_BUF_BASE
  if ¬ (wadd shared_buf_ptr cfg.sizeof_boot_info
        ≤ wadd cfg.PLAT_SPM_BUF_BASE cfg.PLAT_SPM_BUF_SIZE) then
    { writes := [], srcAddr := none, bufBoot := none, bufMp := none,
      err := some MErr.bootRecTooBig }
  else if ¬ (cfg.PLAT_SPM_BUF_BASE ≤ wadd (wsub UINTPTR_MAX cfg.PLAT_SPM_BUF_SIZE) 1) then
    { writes := [], srcAddr := none, bufBoot := none, bufMp := none,
      err := some MErr.baseSizeOverflow }
  else
    match plat.boot_info with
    | none =>
      { writes := [], srcAddr := none, bufBoot := none, bufMp := none,
        err := some MErr.bootInfoNull }
    | some bi =>
      let w1 : List (Nat × Nat) := [(shared_buf_ptr, cfg.sizeof_boot_info)]
      let sp_mp_info := bi.mp_info
      if sp_mp_info = 0 then
        { writes := w1, srcAddr := none, bufBoot := some bi, bufMp := none,
          err := some MErr.mpInfoNull }
      else
        let patched : BootInfo :=
          { bi with mp_info := wadd shared_buf_ptr cfg.sizeof_boot_info }
        let shared_buf_ptr2 := patched.mp_info
        if ¬ (bi.num_cpus ≤ cfg.PLATFORM_CORE_COUNT) then
          { writes := w1, srcAddr := none, bufBoot := some patched, bufMp := none,
            err := some MErr.tooManyCpus }
        else if ¬ (shared_buf_ptr2
              ≤ wsub (wadd cfg.PLAT_SPM_BUF_BASE cfg.PLAT_SPM_BUF_SIZE)
                     (wmul bi.num_cpus cfg.sizeof_mp_info)) then
          { writes := w1, srcAddr := none, bufBoot := some patched, bufMp := none,
            err := some MErr.mpArrayTooBig }
        else
          let src := mp_src_array cfg plat sp_mp_info bi.num_cpus
          let w2 := w1 ++ [(shared_buf_ptr2, wmul bi.num_cpus cfg.sizeof_mp_info)]
          let wloop := (List.range bi.num_cpus).map
            (fun i => (wadd shared_buf_ptr2 (wmul i cfg.sizeof_mp_info),
                       cfg.sizeof_mp_info))
          { writes := w2 ++ wloop, srcAddr := some sp_mp_info,
            bufBoot := some patched,
            bufMp := some (src.map (mp_annotate plat)), err := none }

/-- The eight AAPCS64 argument slots of an `entry_point_info_t`
(`aapcs64_params_t`). -/
structure Aapcs64Params where
  arg0 : Nat
  arg1 : Nat
  arg2 : Nat
  arg3 : Nat
  arg4 : Nat
  arg5 : Nat
  arg6 : Nat
  arg7 : Nat
deriving Repr, DecidableEq

/-- An `entry_point_info_t` as `spm_sp_setup` builds it.  `param_head`
stands for the header written by `SET_PARAM_HEAD` (type, version, size,
attributes), which the routine treats as one opaque constant. -/
structure EntryPointInfo where
  param_head : Nat
  pc : Nat
  spsr : Nat
  args : Aapcs64Params
deriving Repr, DecidableEq

/-- `entry_point_info_t ep_info = {0};` -/
def zero_ep : EntryPointInfo :=
  { param_head := 0, pc := 0, spsr := 0,
    args := { arg0 := 0, arg1 := 0, arg2 := 0, arg3 := 0,
              arg4 := 0, arg5 := 0, arg6 := 0, arg7 := 0 } }

/-- Lines 34-59: zero-initialise the descriptor, write the param header,
`pc`, `spsr` and argument slots 0-3. -/
def build_ep_info (cfg : Config) : EntryPointInfo :=
  let ep0 := zero_ep
  let ep1 := { ep0 with param_head := cfg.param_head }
  let ep2 := { ep1 with pc := cfg.BL32_BASE, spsr := cfg.spsr_value }
  { ep2 with args :=
      { ep2.args with arg0 := cfg.PLAT_SPM_BUF_BASE,
                      arg1 := cfg.PLAT_SPM_BUF_SIZE,
                      arg2 := cfg.PLAT_SPM_COOKIE_0,
                      arg3 := cfg.PLAT_SPM_COOKIE_1 } }

/-- `SCTLR_EL1` bit positions, from the AArch64 architecture (arch.h). -/
def SCTLR_M_BIT : Nat := 2 ^ 0

def SCTLR_A_BIT : Nat := 2 ^ 1

def SCTLR_C_BIT : Nat := 2 ^ 2

def SCTLR_SA0_BIT : Nat := 2 ^ 4

def SCTLR_UMA_BIT : Nat := 2 ^ 9

def SCTLR_I_BIT : Nat := 2 ^ 12

def SCTLR_DZE_BIT : Nat := 2 ^ 14

def SCTLR_UCT_BIT : Nat := 2 ^ 15

def SCTLR_NTWI_BIT : Nat := 2 ^ 16

def SCTLR_NTWE_BIT : Nat := 2 ^ 18

def SCTLR_WXN_BIT : Nat := 2 ^ 19

def SCTLR_E0E_BIT : Nat := 2 ^ 24

def SCTLR_UCI_BIT : Nat := 2 ^ 26

/-- The OR-mask of lines 131-149, in source order. -/
def sctlr_set_mask : Nat :=
  SCTLR_UCI_BIT ||| SCTLR_WXN_BIT ||| SCTLR_NTWI_BIT ||| SCTLR_NTWE_BIT |||
  SCTLR_UCT_BIT ||| SCTLR_DZE_BIT ||| SCTLR_SA0_BIT ||| SCTLR_C_BIT |||
  SCTLR_I_BIT ||| SCTLR_M_BIT

/-- The AND-NOT mask of lines 151-161. -/
def sctlr_clear_mask : Nat :=
  SCTLR_E0E_BIT ||| SCTLR_A_BIT ||| SCTLR_UMA_BIT

/-- The read-modify-write of lines 129-163: `v |= set; v &= ~clear;`.
`Nat.ldiff a b` is bitwise `a AND NOT b`, which agrees with the 64-bit C
computation on 64-bit values. -/
def sctlr_update (v : Nat) : Nat :=
  Nat.ldiff (v ||| sctlr_set_mask) sctlr_clear_mask

/-- `CNTKCTL_EL1` bit positions (arch.h). -/
def EL0PCTEN_BIT : Nat := 2 ^ 0

def EL0VCTEN_BIT : Nat := 2 ^ 1

def EL0VTEN_BIT : Nat := 2 ^ 8

def EL0PTEN_BIT : Nat := 2 ^ 9

/-- Line 174-175: value written to the context's `CNTKCTL_EL1` slot. -/
def cntkctl_value : Nat :=
  EL0PTEN_BIT ||| EL0VTEN_BIT ||| EL0PCTEN_BIT ||| EL0VCTEN_BIT

/-- `CPACR_EL1_FP_TRAP_NONE` (arch.h): FPEN field value that disables
FP/SIMD trapping. -/
def CPACR_EL1_FP_TRAP_NONE : Nat := 3

/-- Line 184-185: `CPACR_EL1_FPEN(x)` places `x` at bit 20. -/
def cpacr_value : Nat := CPACR_EL1_FP_TRAP_NONE * 2 ^ 20

/-- Why the setup routine aborted: a failed alignment assertion
(lines 87 and 90), or a failed assertion inside the marshalling section. -/
inductive SetupAbort where
  | nsBufBaseMisaligned
  | nsBufSizeMisaligned
  | marshalFailed (e : MErr)
deriving Repr, DecidableEq

/-- Observable outcome of one `spm_sp_setup` run.  `ep_info` is the
descriptor handed to `cm_setup_context`; each `Option Nat` field is the
corresponding `write_ctx_reg` slot of the execution context (`none` =
never written before the abort); `marshal` is the marshalling trace
(`none` when setup aborted before reaching it). -/
structure SetupResult where
  ep_info : EntryPointInfo
  sp_el0 : Nat
  mair_el1 : Option Nat
  tcr_el1 : Option Nat
  ttbr0_el1 : Option Nat
  sctlr_el1 : Option Nat
  vbar_el1 : Option Nat
  cntkctl_el1 : Option Nat
  cpacr_el1 : Option Nat
  marshal : Option MTrace
  abort : Option SetupAbort
deriving Repr, DecidableEq

/-- The whole of `spm_sp_setup`, in source order: build and apply the entry
point descriptor, write `SP_EL0`, check the NS shared-buffer alignment
assertions, write the three paging-control registers from `setup_mmu_cfg`,
perform the `SCTLR_EL1` read-modify-write, write `VBAR_EL1`, `CNTKCTL_EL1`
and `CPACR_EL1`, then run the Boot-Info Marshaller. -/
def spm_sp_setup (cfg : Config) (plat : Platform) : SetupResult :=
  let ep := build_ep_info cfg
  let r0 : SetupResult :=
    { ep_info := ep,
      sp_el0 := wadd cfg.PLAT_SP_IMAGE_STACK_BASE cfg.PLAT_SP_IMAGE_STACK_PCPU_SIZE,
      mair_el1 := none, tcr_el1 := none, ttbr0_el1 := none, sctlr_el1 := none,
      vbar_el1 := none, cntkctl_el1 := none, cpacr_el1 := none,
      marshal := none, abort := none }
  let max_granule_mask := cfg.max_granule - 1
  if ¬ (cfg.PLAT_SP_IMAGE_NS_BUF_BASE &&& max_granule_mask = 0) then
    { r0 with abort := some SetupAbort.nsBufBaseMisaligned }
  else if ¬ (cfg.PLAT_SP_IMAGE_NS_BUF_SIZE &&& max_granule_mask = 0) then
    { r0 with abort := some SetupAbort.nsBufSizeMisaligned }
  else
    let r1 := { r0 with mair_el1 := some plat.mmu_mair,
                        tcr_el1 := some plat.mmu_tcr,
                        ttbr0_el1 := some plat.mmu_ttbr0 }
    let r2 := { r1 with sctlr_el1 := some (sctlr_update plat.sctlr_init),
                        vbar_el1 := some cfg.SPM_SHIM_EXCEPTIONS_PTR,
                        cntkctl_el1 := some cntkctl_value,
                        cpacr_el1 := some cpacr_value }
    let m := spm_marshal cfg plat
    { r2 with marshal := some m,
              abort := match m.err with
                | some e => some (SetupAbort.marshalFailed e)
                | none => none }

/-- Sanity conditions on the platform constants, each one met by every real
`platform_def.h`: the shared buffer lies inside the 64-bit address space
with room to spare, is non-empty, the boot record's end address does not
wrap, and even a maximal MP-info array is not astronomically larger than
the address range below the buffer's end. -/
def Config.Sane (cfg : Config) : Prop :=
  cfg.PLAT_SPM_BUF_BASE + cfg.PLAT_SPM_BUF_SIZE < wordW ∧
  0 < cfg.PLAT_SPM_BUF_SIZE ∧
  cfg.PLAT_SPM_BUF_BASE + cfg.sizeof_boot_info < wordW ∧
  cfg.PLATFORM_CORE_COUNT * cfg.sizeof_mp_info
    ≤ cfg.PLAT_SPM_BUF_BASE + cfg.PLAT_SPM_BUF_SIZE

instance (cfg : Config) : Decidable cfg.Sane := by
  unfold Config.Sane
  infer_instance

/-- A concrete, representative platform configuration (64 KiB max granule,
4 cores, 16-byte MP-info records, 96-byte boot record), used to evaluate
the model at explicit inputs. -/
def cfgW : Config :=
  { BL32_BASE := 0x0E100000, PLAT_SPM_BUF_BASE := 0x00010000,
    PLAT_SPM_BUF_SIZE := 0x1000,
    PLAT_SPM_COOKIE_0 := 11, PLAT_SPM_COOKIE_1 := 22,
    PLAT_SP_IMAGE_STACK_BASE := 0x20000, PLAT_SP_IMAGE_STACK_PCPU_SIZE := 0x1000,
    PLAT_SP_IMAGE_NS_BUF_BASE := 0x10000, PLAT_SP_IMAGE_NS_BUF_SIZE := 0x10000,
    PLATFORM_CORE_COUNT := 4, SPM_SHIM_EXCEPTIONS_PTR := 0x7000,
    max_granule := 0x10000, sizeof_boot_info := 0x60, sizeof_mp_info := 16,
    spsr_value := 0x3C4, param_head := 0x0101 }

/-- `cfgW` with a non-secure buffer base misaligned to the 64 KiB granule. -/
def cfgMis : Config := { cfgW with PLAT_SP_IMAGE_NS_BUF_BASE := 0x10123 }

/-- A concrete platform: two cores with affinity values 0 and 1, the lookup
being the identity, caller on core 1, original MP-info array at `0x9000`. -/
def platW : Platform :=
  { boot_info := some { header := 7, num_cpus := 2, mp_info := 0x9000 },
    mp_mem := fun a => { mpidr := (a - 0x9000) / 16, linear_id := 0, flags := 0 },
    plat_core_pos_by_mpidr := fun m => m,
    plat_my_core_pos := 1,
    sctlr_init := 0x30D00800, mmu_mair := 0xFF, mmu_tcr := 0x2A,
    mmu_ttbr0 := 0x40000 }

/-- `platW` with a boot record reporting zero CPUs and a `NULL` MP-info
pointer. -/
def platNullMp : Platform :=
  { platW with boot_info := some { header := 7, num_cpus := 0, mp_info := 0 } }

/-- `platW` with a boot record reporting zero CPUs and a valid MP-info
pointer. -/
def platZeroCpus : Platform :=
  { platW with boot_info := some { header := 7, num_cpus := 0, mp_info := 0x9000 } }

theorem wordW_eq : wordW = 18446744073709551616 := by norm_num [wordW]

theorem wadd_eq_of_lt {a b : Nat} (h : a + b < wordW) : wadd a b = a + b := by
  unfold wadd
  exact Nat.mod_eq_of_lt h

theorem wmul_eq_of_lt {a b : Nat} (h : a * b < wordW) : wmul a b = a * b := by
  unfold wmul
  exact Nat.mod_eq_of_lt h

theorem wsub_eq_of_le {a b : Nat} (hb : b ≤ a) (ha : a < wordW) : wsub a b = a - b := by
  unfold wsub
  rw [Nat.mod_eq_of_lt (Nat.lt_of_le_of_lt hb ha)]
  have h1 : a + wordW - b = wordW + (a - b) := by omega
  rw [h1, Nat.add_mod_left]
  exact Nat.mod_eq_of_lt (Nat.lt_of_le_of_lt (Nat.sub_le a b) ha)

/-- Under a sane configuration the constant-only overflow assertion of line
198 always passes. -/
theorem overflow_check_of_sane {cfg : Config} (hs : cfg.Sane) :
    cfg.PLAT_SPM_BUF_BASE ≤ wadd (wsub UINTPTR_MAX cfg.PLAT_SPM_BUF_SIZE) 1 := by
  obtain ⟨h1, h2, h3, h4⟩ := hs
  have hW := wordW_eq
  have hszW : cfg.PLAT_SPM_BUF_SIZE ≤ UINTPTR_MAX := by unfold UINTPTR_MAX; omega
  have hmW : UINTPTR_MAX < wordW := by unfold UINTPTR_MAX; omega
  rw [wsub_eq_of_le hszW hmW]
  rw [wadd_eq_of_lt (by unfold UINTPTR_MAX at *; omega)]
  unfold UINTPTR_MAX at *
  omega

/-- Shape of a successful marshalling run: all six assertions pass and the
trace records the two copies, the per-record annotation stores, the patched
boot record and the annotated array. -/
theorem spm_marshal_success_eq (cfg : Config) (plat : Platform) (bi : BootInfo)
    (hs : cfg.Sane) (hbi : plat.boot_info = some bi) (hmp : bi.mp_info ≠ 0)
    (hn : bi.num_cpus ≤ cfg.PLATFORM_CORE_COUNT)
    (hfit : cfg.sizeof_boot_info + bi.num_cpus * cfg.sizeof_mp_info
              ≤ cfg.PLAT_SPM_BUF_SIZE) :
    spm_marshal cfg plat =
      { writes := (cfg.PLAT_SPM_BUF_BASE, cfg.sizeof_boot_info) ::
          (cfg.PLAT_SPM_BUF_BASE + cfg.sizeof_boot_info,
           bi.num_cpus * cfg.sizeof_mp_info) ::
          (List.range bi.num_cpus).map (fun i =>
            (cfg.PLAT_SPM_BUF_BASE + cfg.sizeof_boot_info + i * cfg.sizeof_mp_info,
             cfg.sizeof_mp_info)),
        srcAddr := some bi.mp_info,
        bufBoot := some { bi with
          mp_info := cfg.PLAT_SPM_BUF_BASE + cfg.sizeof_boot_info },
        bufMp := some ((mp_src_array cfg plat bi.mp_info bi.num_cpus).map
          (mp_annotate plat)),
        err := none } := by
  obtain ⟨h1, h2, h3, h4⟩ := hs
  have e1 : wadd cfg.PLAT_SPM_BUF_BASE cfg.sizeof_boot_info
      = cfg.PLAT_SPM_BUF_BASE + cfg.sizeof_boot_info := wadd_eq_of_lt h3
  have e2 : wadd cfg.PLAT_SPM_BUF_BASE cfg.PLAT_SPM_BUF_SIZE
      = cfg.PLAT_SPM_BUF_BASE + cfg.PLAT_SPM_BUF_SIZE := wadd_eq_of_lt h1
  have hnm : bi.num_cpus * cfg.sizeof_mp_info
      ≤ cfg.PLAT_SPM_BUF_BASE + cfg.PLAT_SPM_BUF_SIZE :=
    Nat.le_trans (Nat.mul_le_mul_right _ hn) h4
  have e3 : wmul bi.num_cpus cfg.sizeof_mp_info
      = bi.num_cpus * cfg.sizeof_mp_info :=
    wmul_eq_of_lt (Nat.lt_of_le_of_lt hnm h1)
  have cond1 : wadd cfg.PLAT_SPM_BUF_BASE cfg.sizeof_boot_info
      ≤ wadd cfg.PLAT_SPM_BUF_BASE cfg.PLAT_SPM_BUF_SIZE := by
    rw [e1, e2]; omega
  have cond2 := overflow_check_of_sane ⟨h1, h2, h3, h4⟩
  have e4 : wsub (wadd cfg.PLAT_SPM_BUF_BASE cfg.PLAT_SPM_BUF_SIZE)
        (wmul bi.num_cpus cfg.sizeof_mp_info)
      = cfg.PLAT_SPM_BUF_BASE + cfg.PLAT_SPM_BUF_SIZE
        - bi.num_cpus * cfg.sizeof_mp_info := by
    rw [e2, e3]; exact wsub_eq_of_le hnm h1
  have cond3 : wadd cfg.PLAT_SPM_BUF_BASE cfg.sizeof_boot_info
      ≤ wsub (wadd cfg.PLAT_SPM_BUF_BASE cfg.PLAT_SPM_BUF_SIZE)
          (wmul bi.num_cpus cfg.sizeof_mp_info) := by
    rw [e1, e4]
    omega
  have hmap : (List.range bi.num_cpus).map (fun i =>
        (wadd (wadd cfg.PLAT_SPM_BUF_BASE cfg.sizeof_boot_info)
           (wmul i cfg.sizeof_mp_info), cfg.sizeof_mp_info))
      = (List.range bi.num_cpus).map (fun i =>
        (cfg.PLAT_SPM_BUF_BASE + cfg.sizeof_boot_info + i * cfg.sizeof_mp_info,
         cfg.sizeof_mp_info)) := by
    apply List.map_congr_left
    intro i hi
    have hi2 : i < bi.num_cpus := List.mem_range.mp hi
    have him : i * cfg.sizeof_mp_info ≤ bi.num_cpus * cfg.sizeof_mp_info :=
      Nat.mul_le_mul_right _ (Nat.le_of_lt hi2)
    have e5 : wmul i cfg.sizeof_mp_info = i * cfg.sizeof_mp_info :=
      wmul_eq_of_lt (Nat.lt_of_le_of_lt (Nat.le_trans him hnm) h1)
    rw [e1, e5, wadd_eq_of_lt (by omega)]
  simp only [spm_marshal, hbi]
  rw [if_neg (not_not_intro cond1), if_neg (not_not_intro cond2), if_neg hmp,
      if_neg (not_not_intro hn), if_neg (not_not_intro cond3)]
  rw [hmap]
  simp [e1, e3]

/-- Shape of a run that fails the line-195 assertion: the boot record alone
does not fit, and nothing has been written. -/
theorem spm_marshal_hdr_toobig_eq (cfg : Config) (plat : Platform)
    (hs : cfg.Sane) (hhdr : ¬ cfg.sizeof_boot_info ≤ cfg.PLAT_SPM_BUF_SIZE) :
    spm_marshal cfg plat =
      { writes := [], srcAddr := none, bufBoot := none, bufMp := none,
        err := some MErr.bootRecTooBig } := by
  obtain ⟨h1, h2, h3, h4⟩ := hs
  have e1 : wadd cfg.PLAT_SPM_BUF_BASE cfg.sizeof_boot_info
      = cfg.PLAT_SPM_BUF_BASE + cfg.sizeof_boot_info := wadd_eq_of_lt h3
  have e2 : wadd cfg.PLAT_SPM_BUF_BASE cfg.PLAT_SPM_BUF_SIZE
      = cfg.PLAT_SPM_BUF_BASE + cfg.PLAT_SPM_BUF_SIZE := wadd_eq_of_lt h1
  have cond1 : ¬ (wadd cfg.PLAT_SPM_BUF_BASE cfg.sizeof_boot_info
      ≤ wadd cfg.PLAT_SPM_BUF_BASE cfg.PLAT_SPM_BUF_SIZE) := by
    rw [e1, e2]; omega
  simp only [spm_marshal]
  rw [if_pos cond1]

/-- Shape of a run that passes the boot-record assertions but fails the
line-234 array-fit assertion: only the boot record extent has been written,
and the write stayed inside the buffer. -/
theorem spm_marshal_array_toobig_eq (cfg : Config) (plat : Platform)
    (bi : BootInfo) (hs : cfg.Sane) (hbi : plat.boot_info = some bi)
    (hmp : bi.mp_info ≠ 0) (hn : bi.num_cpus ≤ cfg.PLATFORM_CORE_COUNT)
    (hhdr : cfg.sizeof_boot_info ≤ cfg.PLAT_SPM_BUF_SIZE)
    (hnofit : ¬ cfg.sizeof_boot_info + bi.num_cpus * cfg.sizeof_mp_info
                ≤ cfg.PLAT_SPM_BUF_SIZE) :
    spm_marshal cfg plat =
      { writes := [(cfg.PLAT_SPM_BUF_BASE, cfg.sizeof_boot_info)],
        srcAddr := none,
        bufBoot := some { bi with
          mp_info := cfg.PLAT_SPM_BUF_BASE + cfg.sizeof_boot_info },
        bufMp := none, err := some MErr.mpArrayTooBig } := by
  obtain ⟨h1, h2, h3, h4⟩ := hs
  have e1 : wadd cfg.PLAT_SPM_BUF_BASE cfg.sizeof_boot_info
      = cfg.PLAT_SPM_BUF_BASE + cfg.sizeof_boot_info := wadd_eq_of_lt h3
  have e2 : wadd cfg.PLAT_SPM_BUF_BASE cfg.PLAT_SPM_BUF_SIZE
      = cfg.PLAT_SPM_BUF_BASE + cfg.PLAT_SPM_BUF_SIZE := wadd_eq_of_lt h1
  have hnm : bi.num_cpus * cfg.sizeof_mp_info
      ≤ cfg.PLAT_SPM_BUF_BASE + cfg.PLAT_SPM_BUF_SIZE :=
    Nat.le_trans (Nat.mul_le_mul_right _ hn) h4
  have e3 : wmul bi.num_cpus cfg.sizeof_mp_info
      = bi.num_cpus * cfg.sizeof_mp_info :=
    wmul_eq_of_lt (Nat.lt_of_le_of_lt hnm h1)
  have cond1 : wadd cfg.PLAT_SPM_BUF_BASE cfg.sizeof_boot_info
      ≤ wadd cfg.PLAT_SPM_BUF_BASE cfg.PLAT_SPM_BUF_SIZE := by
    rw [e1, e2]; omega
  have cond2 := overflow_check_of_sane ⟨h1, h2, h3, h4⟩
  have e4 : wsub (wadd cfg.PLAT_SPM_BUF_BASE cfg.PLAT_SPM_BUF_SIZE)
        (wmul bi.num_cpus cfg.sizeof_mp_info)
      = cfg.PLAT_SPM_BUF_BASE + cfg.PLAT_SPM_BUF_SIZE
        - bi.num_cpus * cfg.sizeof_mp_info := by
    rw [e2, e3]; exact wsub_eq_of_le hnm h1
  have cond3 : ¬ (wadd cfg.PLAT_SPM_BUF_BASE cfg.sizeof_boot_info
      ≤ wsub (wadd cfg.PLAT_SPM_BUF_BASE cfg.PLAT_SPM_BUF_SIZE)
          (wmul bi.num_cpus cfg.sizeof_mp_info)) := by
    rw [e1, e4]; omega
  simp only [spm_marshal, hbi]
  rw [if_neg (not_not_intro cond1), if_neg (not_not_intro cond2), if_neg hmp,
      if_neg (not_not_intro hn), if_pos cond3]
  simp [e1]

theorem mp_annotate_mpidr (plat : Platform) (r : MpInfo) :
    (mp_annotate plat r).mpidr = r.mpidr := by
  unfold mp_annotate
  dsimp only
  split <;> rfl

theorem mp_annotate_linear_id (plat : Platform) (r : MpInfo) :
    (mp_annotate plat r).linear_id = plat.plat_core_pos_by_mpidr r.mpidr := by
  unfold mp_annotate
  dsimp only
  split <;> rfl

/-- On a record whose primary bit is clear, the annotation loop sets the
primary bit exactly when the record's affinity resolves to the calling
core's linear index. -/
theorem mp_annotate_flags_bit0 (plat : Platform) (r : MpInfo)
    (h : r.flags.testBit 0 = false) :
    (mp_annotate plat r).flags.testBit 0
      = decide (plat.plat_core_pos_by_mpidr r.mpidr = plat.plat_my_core_pos) := by
  unfold mp_annotate
  dsimp only
  by_cases hc : plat.plat_my_core_pos = plat.plat_core_pos_by_mpidr r.mpidr
  · rw [if_pos hc]
    have h1 : MP_INFO_FLAG_PRIMARY_CPU.testBit 0 = true := by decide
    rw [Nat.testBit_lor, h1]
    simp [hc.symm]
  · rw [if_neg hc]
    dsimp only
    rw [h]
    symm
    simp only [decide_eq_false_iff_not]
    exact fun hx => hc hx.symm

/-- The annotation loop touches no flag bit other than the primary bit. -/
theorem mp_annotate_flags_testBit_ne (plat : Platform) (r : MpInfo) (b : Nat)
    (hb : b ≠ 0) :
    (mp_annotate plat r).flags.testBit b = r.flags.testBit b := by
  unfold mp_annotate
  dsimp only
  by_cases hc : plat.plat_my_core_pos = plat.plat_core_pos_by_mpidr r.mpidr
  · rw [if_pos hc]
    dsimp only
    rw [Nat.testBit_lor]
    have h1 : MP_INFO_FLAG_PRIMARY_CPU.testBit b = false := by
      unfold MP_INFO_FLAG_PRIMARY_CPU
      rw [show (1 : Nat) = 2 ^ 0 by norm_num, Nat.testBit_two_pow]
      simp only [decide_eq_false_iff_not]
      exact fun hx => hb hx.symm
    rw [h1]
    simp
  · rw [if_neg hc]

/-- C2: for every `num_cpus` within the platform maximum, the Boot-Info
Marshaller succeeds if and only if the boot record followed by `num_cpus`
MP-info records fits in the shared buffer
(`sizeof_boot_info + num_cpus * sizeof_mp_info ≤ PLAT_SPM_BUF_SIZE`);
when that inequality fails, the run aborts with every write it performed
lying inside the buffer, so no byte was written past the buffer's end. -/
theorem marshal_succeeds_iff_fits (cfg : Config) (plat : Platform)
    (bi : BootInfo) (hs : cfg.Sane) (hbi : plat.boot_info = some bi)
    (hmp : bi.mp_info ≠ 0) (hn : bi.num_cpus ≤ cfg.PLATFORM_CORE_COUNT) :
    ((spm_marshal cfg plat).err = none ↔
      cfg.sizeof_boot_info + bi.num_cpus * cfg.sizeof_mp_info
        ≤ cfg.PLAT_SPM_BUF_SIZE)
    ∧ ((spm_marshal cfg plat).err ≠ none →
        ∀ w ∈ (spm_marshal cfg plat).writes,
          cfg.PLAT_SPM_BUF_BASE ≤ w.1 ∧
          w.1 + w.2 ≤ cfg.PLAT_SPM_BUF_BASE + cfg.PLAT_SPM_BUF_SIZE) := by
  by_cases hfit : cfg.sizeof_boot_info + bi.num_cpus * cfg.sizeof_mp_info
      ≤ cfg.PLAT_SPM_BUF_SIZE
  · rw [spm_marshal_success_eq cfg plat bi hs hbi hmp hn hfit]
    refine ⟨by simp [hfit], ?_⟩
    intro hne
    simp at hne
  · by_cases hhdr : cfg.sizeof_boot_info ≤ cfg.PLAT_SPM_BUF_SIZE
    · rw [spm_marshal_array_toobig_eq cfg plat bi hs hbi hmp hn hhdr hfit]
      refine ⟨by simp [hfit], ?_⟩
      intro _ w hw
      simp only [List.mem_singleton] at hw
      subst hw
      refine ⟨Nat.le_refl _, ?_⟩
      dsimp only
      omega
    · rw [spm_marshal_hdr_toobig_eq cfg plat hs hhdr]
      refine ⟨by simp [hfit], ?_⟩
      intro _ w hw
      simp at hw

/-- C2 witness: at the representative configuration with 2 CPUs the run
succeeds, matching the fit inequality. -/
theorem marshal_succeeds_iff_fits_witness :
    cfgW.Sane ∧ platW.boot_info = some { header := 7, num_cpus := 2, mp_info := 0x9000 } ∧
    ({ header := 7, num_cpus := 2, mp_info := 0x9000 } : BootInfo).mp_info ≠ 0 ∧
    ({ header := 7, num_cpus := 2, mp_info := 0x9000 } : BootInfo).num_cpus
      ≤ cfgW.PLATFORM_CORE_COUNT ∧
    (((spm_marshal cfgW platW).err = none ↔
      cfgW.sizeof_boot_info + ({ header := 7, num_cpus := 2, mp_info := 0x9000 } : BootInfo).num_cpus * cfgW.sizeof_mp_info
        ≤ cfgW.PLAT_SPM_BUF_SIZE)
    ∧ ((spm_marshal cfgW platW).err ≠ none →
        ∀ w ∈ (spm_marshal cfgW platW).writes,
          cfgW.PLAT_SPM_BUF_BASE ≤ w.1 ∧
          w.1 + w.2 ≤ cfgW.PLAT_SPM_BUF_BASE + cfgW.PLAT_SPM_BUF_SIZE)) :=
  ⟨by decide, by decide, by decide, by decide,
   marshal_succeeds_iff_fits cfgW platW
     { header := 7, num_cpus := 2, mp_info := 0x9000 }
     (by decide) (by decide) (by decide) (by decide)⟩

/-- C3: after a successful run, the MP-info pointer stored in the
buffer-resident boot record equals `PLAT_SPM_BUF_BASE + sizeof_boot_info`,
and, the platform's original array living at a different address, it no
longer equals that original address. -/
theorem marshal_mp_pointer_patched (cfg : Config) (plat : Platform)
    (bi : BootInfo) (hs : cfg.Sane) (hbi : plat.boot_info = some bi)
    (hmp : bi.mp_info ≠ 0) (hn : bi.num_cpus ≤ cfg.PLATFORM_CORE_COUNT)
    (hfit : cfg.sizeof_boot_info + bi.num_cpus * cfg.sizeof_mp_info
      ≤ cfg.PLAT_SPM_BUF_SIZE)
    (horig : bi.mp_info ≠ cfg.PLAT_SPM_BUF_BASE + cfg.sizeof_boot_info) :
    ∃ bb, (spm_marshal cfg plat).err = none ∧
      (spm_marshal cfg plat).bufBoot = some bb ∧
      bb.mp_info = cfg.PLAT_SPM_BUF_BASE + cfg.sizeof_boot_info ∧
      bb.mp_info ≠ bi.mp_info := by
  rw [spm_marshal_success_eq cfg plat bi hs hbi hmp hn hfit]
  exact ⟨_, rfl, rfl, rfl, fun h => horig h.symm⟩

/-- C3 witness: concrete successful run; the patched pointer is
`0x10000 + 0x60` and differs from the original `0x9000`. -/
theorem marshal_mp_pointer_patched_witness :
    cfgW.Sane ∧
    platW.boot_info = some { header := 7, num_cpus := 2, mp_info := 0x9000 } ∧
    (0x9000 : Nat) ≠ 0 ∧ (2 : Nat) ≤ cfgW.PLATFORM_CORE_COUNT ∧
    cfgW.sizeof_boot_info + 2 * cfgW.sizeof_mp_info ≤ cfgW.PLAT_SPM_BUF_SIZE ∧
    (0x9000 : Nat) ≠ cfgW.PLAT_SPM_BUF_BASE + cfgW.sizeof_boot_info ∧
    (∃ bb, (spm_marshal cfgW platW).err = none ∧
      (spm_marshal cfgW platW).bufBoot = some bb ∧
      bb.mp_info = cfgW.PLAT_SPM_BUF_BASE + cfgW.sizeof_boot_info ∧
      bb.mp_info ≠ ({ header := 7, num_cpus := 2, mp_info := 0x9000 } : BootInfo).mp_info) :=
  ⟨by decide, by decide, by decide, by decide, by decide, by decide,
   marshal_mp_pointer_patched cfgW platW
     { header := 7, num_cpus := 2, mp_info := 0x9000 }
     (by decide) (by decide) (by decide) (by decide) (by decide) (by decide)⟩

/-- C9: the `num_cpus` records land in the buffer read from the platform's
original array address — the pointer captured from the copied boot record
before the patch — and every store the Marshaller performs lies inside the
shared buffer, so the platform's original record and array (which live
outside the buffer) are never written. -/
theorem marshal_copies_from_original_array (cfg : Config) (plat : Platform)
    (bi : BootInfo) (hs : cfg.Sane) (hbi : plat.boot_info = some bi)
    (hmp : bi.mp_info ≠ 0) (hn : bi.num_cpus ≤ cfg.PLATFORM_CORE_COUNT)
    (hfit : cfg.sizeof_boot_info + bi.num_cpus * cfg.sizeof_mp_info
      ≤ cfg.PLAT_SPM_BUF_SIZE) :
    (spm_marshal cfg plat).srcAddr = some bi.mp_info ∧
    (spm_marshal cfg plat).bufMp =
      some ((mp_src_array cfg plat bi.mp_info bi.num_cpus).map
        (mp_annotate plat)) ∧
    (∀ w ∈ (spm_marshal cfg plat).writes,
      cfg.PLAT_SPM_BUF_BASE ≤ w.1 ∧
      w.1 + w.2 ≤ cfg.PLAT_SPM_BUF_BASE + cfg.PLAT_SPM_BUF_SIZE) := by
  rw [spm_marshal_success_eq cfg plat bi hs hbi hmp hn hfit]
  refine ⟨rfl, rfl, ?_⟩
  intro w hw
  simp only [List.mem_cons, List.mem_map, List.mem_range] at hw
  rcases hw with rfl | rfl | ⟨i, hi, rfl⟩
  · exact ⟨Nat.le_refl _, by dsimp only; omega⟩
  · exact ⟨by dsimp only; omega, by dsimp only; omega⟩
  · have hd : (i + 1) * cfg.sizeof_mp_info
        = i * cfg.sizeof_mp_info + cfg.sizeof_mp_info := by ring
    have hmono : (i + 1) * cfg.sizeof_mp_info
        ≤ bi.num_cpus * cfg.sizeof_mp_info := Nat.mul_le_mul_right _ hi
    exact ⟨by dsimp only; omega, by dsimp only; omega⟩

/-- C9 witness: concrete successful run reading the array at `0x9000`. -/
theorem marshal_copies_from_original_array_witness :
    cfgW.Sane ∧
    platW.boot_info = some { header := 7, num_cpus := 2, mp_info := 0x9000 } ∧
    (0x9000 : Nat) ≠ 0 ∧ (2 : Nat) ≤ cfgW.PLATFORM_CORE_COUNT ∧
    cfgW.sizeof_boot_info + 2 * cfgW.sizeof_mp_info ≤ cfgW.PLAT_SPM_BUF_SIZE ∧
    ((spm_marshal cfgW platW).srcAddr = some 0x9000 ∧
    (spm_marshal cfgW platW).bufMp =
      some ((mp_src_array cfgW platW 0x9000 2).map (mp_annotate platW)) ∧
    (∀ w ∈ (spm_marshal cfgW platW).writes,
      cfgW.PLAT_SPM_BUF_BASE ≤ w.1 ∧
      w.1 + w.2 ≤ cfgW.PLAT_SPM_BUF_BASE + cfgW.PLAT_SPM_BUF_SIZE)) :=
  ⟨by decide, by decide, by decide, by decide, by decide,
   marshal_copies_from_original_array cfgW platW
     { header := 7, num_cpus := 2, mp_info := 0x9000 }
     (by decide) (by decide) (by decide) (by decide) (by decide)⟩

/-- C10 counterexample: a platform reporting `num_cpus = 0` through a
non-`NULL` boot record whose MP-info pointer field is `NULL` makes the
Marshaller fail (the line-212 assertion), so the claim as stated is false:
`num_cpus = 0` and a non-null record alone do not guarantee success. -/
theorem marshal_zero_cpus_counterexample :
    cfgW.Sane ∧
    platNullMp.boot_info = some { header := 7, num_cpus := 0, mp_info := 0 } ∧
    cfgW.sizeof_boot_info ≤ cfgW.PLAT_SPM_BUF_SIZE ∧
    (spm_marshal cfgW platNullMp).err = some MErr.mpInfoNull ∧
    ¬ (spm_marshal cfgW platNullMp).err = none := by
  decide

/-- C10 (amended): if the platform reports `num_cpus = 0` through a
non-null boot record whose MP-info pointer is also non-null, and the boot
record fits the buffer, the Marshaller succeeds: the boot record is copied
and patched, the array copy transfers zero bytes, the annotation loop runs
no iterations, and no record carries the primary flag. -/
theorem marshal_zero_cpus_succeeds (cfg : Config) (plat : Platform)
    (bi : BootInfo) (hs : cfg.Sane) (hbi : plat.boot_info = some bi)
    (hmp : bi.mp_info ≠ 0) (h0 : bi.num_cpus = 0)
    (hhdr : cfg.sizeof_boot_info ≤ cfg.PLAT_SPM_BUF_SIZE) :
    (spm_marshal cfg plat).err = none ∧
    (spm_marshal cfg plat).bufBoot =
      some { bi with mp_info := cfg.PLAT_SPM_BUF_BASE + cfg.sizeof_boot_info } ∧
    (spm_marshal cfg plat).bufMp = some [] ∧
    (spm_marshal cfg plat).writes =
      [(cfg.PLAT_SPM_BUF_BASE, cfg.sizeof_boot_info),
       (cfg.PLAT_SPM_BUF_BASE + cfg.sizeof_boot_info, 0)] ∧
    (∀ l, (spm_marshal cfg plat).bufMp = some l →
      l.countP (fun r => r.flags.testBit 0) = 0) := by
  have hn : bi.num_cpus ≤ cfg.PLATFORM_CORE_COUNT := by omega
  have hz : bi.num_cpus * cfg.sizeof_mp_info = 0 := by
    rw [h0]; ring
  have hfit : cfg.sizeof_boot_info + bi.num_cpus * cfg.sizeof_mp_info
      ≤ cfg.PLAT_SPM_BUF_SIZE := by omega
  rw [spm_marshal_success_eq cfg plat bi hs hbi hmp hn hfit]
  refine ⟨rfl, rfl, ?_, ?_, ?_⟩
  · simp [mp_src_array, h0]
  · simp [h0]
  · intro l hl
    simp only [mp_src_array, h0, List.range_zero, List.map_nil,
      Option.some_inj] at hl
    subst hl
    simp

/-- C10 witness for the amended claim: zero CPUs with a valid MP-info
pointer succeed, with an empty array and no primary flag. -/
theorem marshal_zero_cpus_succeeds_witness :
    cfgW.Sane ∧
    platZeroCpus.boot_info = some { header := 7, num_cpus := 0, mp_info := 0x9000 } ∧
    (0x9000 : Nat) ≠ 0 ∧
    cfgW.sizeof_boot_info ≤ cfgW.PLAT_SPM_BUF_SIZE ∧
    ((spm_marshal cfgW platZeroCpus).err = none ∧
    (spm_marshal cfgW platZeroCpus).bufBoot =
      some { header := 7, num_cpus := 0,
             mp_info := cfgW.PLAT_SPM_BUF_BASE + cfgW.sizeof_boot_info } ∧
    (spm_marshal cfgW platZeroCpus).bufMp = some [] ∧
    (spm_marshal cfgW platZeroCpus).writes =
      [(cfgW.PLAT_SPM_BUF_BASE, cfgW.sizeof_boot_info),
       (cfgW.PLAT_SPM_BUF_BASE + cfgW.sizeof_boot_info, 0)] ∧
    (∀ l, (spm_marshal cfgW platZeroCpus).bufMp = some l →
      l.countP (fun r => r.flags.testBit 0) = 0)) :=
  ⟨by decide, by decide, by decide, by decide,
   marshal_zero_cpus_succeeds cfgW platZeroCpus
     { header := 7, num_cpus := 0, mp_info := 0x9000 }
     (by decide) (by decide) (by decide) (by decide) (by decide)⟩

/-- C1: over a platform-supplied MP-info array (primary bits clear, and
exactly one record whose affinity resolves to the calling core's linear
index, as the platform port contract guarantees), exactly one buffer-
resident output record carries the primary flag, and every flagged record's
affinity identifier resolves to the calling core's own linear index. -/
theorem marshal_primary_flag_unique (cfg : Config) (plat : Platform)
    (bi : BootInfo) (hs : cfg.Sane) (hbi : plat.boot_info = some bi)
    (hmp : bi.mp_info ≠ 0) (hn : bi.num_cpus ≤ cfg.PLATFORM_CORE_COUNT)
    (hfit : cfg.sizeof_boot_info + bi.num_cpus * cfg.sizeof_mp_info
      ≤ cfg.PLAT_SPM_BUF_SIZE)
    (hclear : ∀ r ∈ mp_src_array cfg plat bi.mp_info bi.num_cpus,
      r.flags.testBit 0 = false)
    (hone : (mp_src_array cfg plat bi.mp_info bi.num_cpus).countP
      (fun r => decide (plat.plat_core_pos_by_mpidr r.mpidr
        = plat.plat_my_core_pos)) = 1) :
    ∃ out, (spm_marshal cfg plat).bufMp = some out ∧
      out.countP (fun r => r.flags.testBit 0) = 1 ∧
      ∀ r ∈ out, r.flags.testBit 0 = true →
        plat.plat_core_pos_by_mpidr r.mpidr = plat.plat_my_core_pos := by
  rw [spm_marshal_success_eq cfg plat bi hs hbi hmp hn hfit]
  refine ⟨_, rfl, ?_, ?_⟩
  · rw [List.countP_map]
    rw [List.countP_congr ?_]
    · exact hone
    · intro x hx
      simp only [Function.comp_apply]
      rw [mp_annotate_flags_bit0 plat x (hclear x hx)]
  · intro r hr hbit
    rw [List.mem_map] at hr
    obtain ⟨s, hsmem, rfl⟩ := hr
    rw [mp_annotate_flags_bit0 plat s (hclear s hsmem)] at hbit
    rw [mp_annotate_mpidr]
    exact of_decide_eq_true hbit

/-- C1 witness: concrete run on two records with affinities 0 and 1,
identity lookup, caller on core 1: exactly one output record is flagged. -/
theorem marshal_primary_flag_unique_witness :
    cfgW.Sane ∧
    platW.boot_info = some { header := 7, num_cpus := 2, mp_info := 0x9000 } ∧
    (0x9000 : Nat) ≠ 0 ∧ (2 : Nat) ≤ cfgW.PLATFORM_CORE_COUNT ∧
    cfgW.sizeof_boot_info + 2 * cfgW.sizeof_mp_info ≤ cfgW.PLAT_SPM_BUF_SIZE ∧
    (∀ r ∈ mp_src_array cfgW platW 0x9000 2, r.flags.testBit 0 = false) ∧
    (mp_src_array cfgW platW 0x9000 2).countP
      (fun r => decide (platW.plat_core_pos_by_mpidr r.mpidr
        = platW.plat_my_core_pos)) = 1 ∧
    (∃ out, (spm_marshal cfgW platW).bufMp = some out ∧
      out.countP (fun r => r.flags.testBit 0) = 1 ∧
      ∀ r ∈ out, r.flags.testBit 0 = true →
        platW.plat_core_pos_by_mpidr r.mpidr = platW.plat_my_core_pos) :=
  ⟨by decide, by decide, by decide, by decide, by decide, by decide, by decide,
   marshal_primary_flag_unique cfgW platW
     { header := 7, num_cpus := 2, mp_info := 0x9000 }
     (by decide) (by decide) (by decide) (by decide) (by decide)
     (by decide) (by decide)⟩

/-- C4: reading back the buffer-resident array yields, in original order,
records with the input's affinity identifiers, the input's flag bits on
every position other than the primary bit, and a linear-index field equal
to the external lookup's resolution of that record's affinity. -/
theorem marshal_roundtrip (cfg : Config) (plat : Platform)
    (bi : BootInfo) (hs : cfg.Sane) (hbi : plat.boot_info = some bi)
    (hmp : bi.mp_info ≠ 0) (hn : bi.num_cpus ≤ cfg.PLATFORM_CORE_COUNT)
    (hfit : cfg.sizeof_boot_info + bi.num_cpus * cfg.sizeof_mp_info
      ≤ cfg.PLAT_SPM_BUF_SIZE) :
    ∃ out, (spm_marshal cfg plat).bufMp = some out ∧
      out.length = bi.num_cpus ∧
      ∀ i (hi : i < out.length)
        (hj : i < (mp_src_array cfg plat bi.mp_info bi.num_cpus).length),
        (out.get ⟨i, hi⟩).mpidr
          = ((mp_src_array cfg plat bi.mp_info bi.num_cpus).get ⟨i, hj⟩).mpidr ∧
        (out.get ⟨i, hi⟩).linear_id
          = plat.plat_core_pos_by_mpidr
              ((mp_src_array cfg plat bi.mp_info bi.num_cpus).get ⟨i, hj⟩).mpidr ∧
        ∀ b, b ≠ 0 →
          (out.get ⟨i, hi⟩).flags.testBit b
            = ((mp_src_array cfg plat bi.mp_info bi.num_cpus).get
                ⟨i, hj⟩).flags.testBit b := by
  rw [spm_marshal_success_eq cfg plat bi hs hbi hmp hn hfit]
  refine ⟨_, rfl, ?_, ?_⟩
  · simp [mp_src_array]
  · intro i hi hj
    have hget : ((mp_src_array cfg plat bi.mp_info bi.num_cpus).map
          (mp_annotate plat)).get ⟨i, hi⟩
        = mp_annotate plat
            ((mp_src_array cfg plat bi.mp_info bi.num_cpus).get ⟨i, hj⟩) := by
      simp
    rw [hget, mp_annotate_mpidr, mp_annotate_linear_id]
    exact ⟨rfl, rfl, fun b hb => mp_annotate_flags_testBit_ne plat _ b hb⟩

/-- C4 witness: concrete two-record round trip. -/
theorem marshal_roundtrip_witness :
    cfgW.Sane ∧
    platW.boot_info = some { header := 7, num_cpus := 2, mp_info := 0x9000 } ∧
    (0x9000 : Nat) ≠ 0 ∧ (2 : Nat) ≤ cfgW.PLATFORM_CORE_COUNT ∧
    cfgW.sizeof_boot_info + 2 * cfgW.sizeof_mp_info ≤ cfgW.PLAT_SPM_BUF_SIZE ∧
    (∃ out, (spm_marshal cfgW platW).bufMp = some out ∧
      out.length = 2 ∧
      ∀ i (hi : i < out.length)
        (hj : i < (mp_src_array cfgW platW 0x9000 2).length),
        (out.get ⟨i, hi⟩).mpidr
          = ((mp_src_array cfgW platW 0x9000 2).get ⟨i, hj⟩).mpidr ∧
        (out.get ⟨i, hi⟩).linear_id
          = platW.plat_core_pos_by_mpidr
              ((mp_src_array cfgW platW 0x9000 2).get ⟨i, hj⟩).mpidr ∧
        ∀ b, b ≠ 0 →
          (out.get ⟨i, hi⟩).flags.testBit b
            = ((mp_src_array cfgW platW 0x9000 2).get
                ⟨i, hj⟩).flags.testBit b) :=
  ⟨by decide, by decide, by decide, by decide, by decide,
   marshal_roundtrip cfgW platW
     { header := 7, num_cpus := 2, mp_info := 0x9000 }
     (by decide) (by decide) (by decide) (by decide) (by decide)⟩

/-- When both alignment assertions pass, the register slots written after
them hold exactly the values the source writes. -/
theorem spm_sp_setup_aligned_regs (cfg : Config) (plat : Platform)
    (hb : cfg.PLAT_SP_IMAGE_NS_BUF_BASE &&& (cfg.max_granule - 1) = 0)
    (hsz : cfg.PLAT_SP_IMAGE_NS_BUF_SIZE &&& (cfg.max_granule - 1) = 0) :
    (spm_sp_setup cfg plat).mair_el1 = some plat.mmu_mair ∧
    (spm_sp_setup cfg plat).tcr_el1 = some plat.mmu_tcr ∧
    (spm_sp_setup cfg plat).ttbr0_el1 = some plat.mmu_ttbr0 ∧
    (spm_sp_setup cfg plat).sctlr_el1 = some (sctlr_update plat.sctlr_init) ∧
    (spm_sp_setup cfg plat).vbar_el1 = some cfg.SPM_SHIM_EXCEPTIONS_PTR ∧
    (spm_sp_setup cfg plat).cntkctl_el1 = some cntkctl_value ∧
    (spm_sp_setup cfg plat).cpacr_el1 = some cpacr_value ∧
    (spm_sp_setup cfg plat).marshal = some (spm_marshal cfg plat) := by
  simp only [spm_sp_setup]
  rw [if_neg (not_not_intro hb), if_neg (not_not_intro hsz)]
  exact ⟨rfl, rfl, rfl, rfl, rfl, rfl, rfl, rfl⟩

/-- C6: the entry-point descriptor applied to the execution context carries
exactly (shared-buffer base, shared-buffer size, cookie 0, cookie 1) in
argument slots 0-3, and zero in every remaining slot. -/
theorem setup_ep_args_exact (cfg : Config) (plat : Platform) :
    (spm_sp_setup cfg plat).ep_info.args =
      { arg0 := cfg.PLAT_SPM_BUF_BASE, arg1 := cfg.PLAT_SPM_BUF_SIZE,
        arg2 := cfg.PLAT_SPM_COOKIE_0, arg3 := cfg.PLAT_SPM_COOKIE_1,
        arg4 := 0, arg5 := 0, arg6 := 0, arg7 := 0 } := by
  simp only [spm_sp_setup]
  split
  · rfl
  · split
    · rfl
    · rfl

/-- C5: with a non-secure shared-buffer base (or size) misaligned to the
maximum supported translation granule, setup aborts at the alignment
assertions and none of the three paging-control register slots of the
execution context is ever written. -/
theorem setup_misaligned_aborts_before_mmu_regs (cfg : Config)
    (plat : Platform)
    (h : ¬ cfg.PLAT_SP_IMAGE_NS_BUF_BASE &&& (cfg.max_granule - 1) = 0 ∨
         ¬ cfg.PLAT_SP_IMAGE_NS_BUF_SIZE &&& (cfg.max_granule - 1) = 0) :
    ((spm_sp_setup cfg plat).abort = some SetupAbort.nsBufBaseMisaligned ∨
     (spm_sp_setup cfg plat).abort = some SetupAbort.nsBufSizeMisaligned) ∧
    (spm_sp_setup cfg plat).mair_el1 = none ∧
    (spm_sp_setup cfg plat).tcr_el1 = none ∧
    (spm_sp_setup cfg plat).ttbr0_el1 = none := by
  by_cases hb : cfg.PLAT_SP_IMAGE_NS_BUF_BASE &&& (cfg.max_granule - 1) = 0
  · have hsz : ¬ cfg.PLAT_SP_IMAGE_NS_BUF_SIZE &&& (cfg.max_granule - 1) = 0 :=
      h.resolve_left (not_not_intro hb)
    simp only [spm_sp_setup]
    rw [if_neg (not_not_intro hb), if_pos hsz]
    exact ⟨Or.inr rfl, rfl, rfl, rfl⟩
  · simp only [spm_sp_setup]
    rw [if_pos hb]
    exact ⟨Or.inl rfl, rfl, rfl, rfl⟩

/-- C5 witness: at a configuration whose non-secure buffer base `0x10123`
is misaligned to the 64 KiB granule, setup aborts with the paging-control
slots unwritten. -/
theorem setup_misaligned_aborts_before_mmu_regs_witness :
    (¬ cfgMis.PLAT_SP_IMAGE_NS_BUF_BASE &&& (cfgMis.max_granule - 1) = 0 ∨
     ¬ cfgMis.PLAT_SP_IMAGE_NS_BUF_SIZE &&& (cfgMis.max_granule - 1) = 0) ∧
    (((spm_sp_setup cfgMis platW).abort = some SetupAbort.nsBufBaseMisaligned ∨
      (spm_sp_setup cfgMis platW).abort = some SetupAbort.nsBufSizeMisaligned) ∧
     (spm_sp_setup cfgMis platW).mair_el1 = none ∧
     (spm_sp_setup cfgMis platW).tcr_el1 = none ∧
     (spm_sp_setup cfgMis platW).ttbr0_el1 = none) :=
  ⟨by decide,
   setup_misaligned_aborts_before_mmu_regs cfgMis platW (by decide)⟩

/-- Bit-level view of the `SCTLR_EL1` read-modify-write. -/
theorem sctlr_update_testBit (v b : Nat) :
    (sctlr_update v).testBit b
      = ((v.testBit b || sctlr_set_mask.testBit b)
          && !(sctlr_clear_mask.testBit b)) := by
  unfold sctlr_update
  rw [Nat.testBit_ldiff, Nat.testBit_lor]

theorem sctlr_set_mask_testBit (b : Nat) :
    sctlr_set_mask.testBit b
      = (decide (26 = b) || decide (19 = b) || decide (16 = b) ||
         decide (18 = b) || decide (15 = b) || decide (14 = b) ||
         decide (4 = b) || decide (2 = b) || decide (12 = b) ||
         decide (0 = b)) := by
  unfold sctlr_set_mask SCTLR_UCI_BIT SCTLR_WXN_BIT SCTLR_NTWI_BIT
    SCTLR_NTWE_BIT SCTLR_UCT_BIT SCTLR_DZE_BIT SCTLR_SA0_BIT SCTLR_C_BIT
    SCTLR_I_BIT SCTLR_M_BIT
  simp only [Nat.testBit_lor, Nat.testBit_two_pow]

theorem sctlr_clear_mask_testBit (b : Nat) :
    sctlr_clear_mask.testBit b
      = (decide (24 = b) || decide (1 = b) || decide (9 = b)) := by
  unfold sctlr_clear_mask SCTLR_E0E_BIT SCTLR_A_BIT SCTLR_UMA_BIT
  simp only [Nat.testBit_lor, Nat.testBit_two_pow]

/-- C7: the value written into the context's `SCTLR_EL1` slot has the UCI
(bit 26), WXN (19), nTWI (16), nTWE (18), UCT (15), DZE (14), SA0 (4),
C (2), I (12) and M (0) bits set, and the E0E (24), A (1) and UMA (9) bits
clear, whatever value the slot held before. -/
theorem setup_sctlr_bits (cfg : Config) (plat : Platform)
    (hb : cfg.PLAT_SP_IMAGE_NS_BUF_BASE &&& (cfg.max_granule - 1) = 0)
    (hsz : cfg.PLAT_SP_IMAGE_NS_BUF_SIZE &&& (cfg.max_granule - 1) = 0) :
    ∃ v, (spm_sp_setup cfg plat).sctlr_el1 = some v ∧
      v.testBit 26 = true ∧ v.testBit 19 = true ∧ v.testBit 16 = true ∧
      v.testBit 18 = true ∧ v.testBit 15 = true ∧ v.testBit 14 = true ∧
      v.testBit 4 = true ∧ v.testBit 2 = true ∧ v.testBit 12 = true ∧
      v.testBit 0 = true ∧ v.testBit 24 = false ∧ v.testBit 1 = false ∧
      v.testBit 9 = false := by
  obtain ⟨-, -, -, hsc, -⟩ := spm_sp_setup_aligned_regs cfg plat hb hsz
  refine ⟨_, hsc, ?_, ?_, ?_, ?_, ?_, ?_, ?_, ?_, ?_, ?_, ?_, ?_, ?_⟩ <;>
    (rw [sctlr_update_testBit, sctlr_set_mask_testBit, sctlr_clear_mask_testBit]
     simp)

/-- C7 witness: at the representative aligned configuration the written
`SCTLR_EL1` value has all thirteen named bits as claimed. -/
theorem setup_sctlr_bits_witness :
    cfgW.PLAT_SP_IMAGE_NS_BUF_BASE &&& (cfgW.max_granule - 1) = 0 ∧
    cfgW.PLAT_SP_IMAGE_NS_BUF_SIZE &&& (cfgW.max_granule - 1) = 0 ∧
    (∃ v, (spm_sp_setup cfgW platW).sctlr_el1 = some v ∧
      v.testBit 26 = true ∧ v.testBit 19 = true ∧ v.testBit 16 = true ∧
      v.testBit 18 = true ∧ v.testBit 15 = true ∧ v.testBit 14 = true ∧
      v.testBit 4 = true ∧ v.testBit 2 = true ∧ v.testBit 12 = true ∧
      v.testBit 0 = true ∧ v.testBit 24 = false ∧ v.testBit 1 = false ∧
      v.testBit 9 = false) :=
  ⟨by decide, by decide, setup_sctlr_bits cfgW platW (by decide) (by decide)⟩

/-- C8: every `SCTLR_EL1` bit other than the thirteen named toggles keeps
the value it had in the context slot before the read-modify-write. -/
theorem setup_sctlr_frame (cfg : Config) (plat : Platform)
    (hb : cfg.PLAT_SP_IMAGE_NS_BUF_BASE &&& (cfg.max_granule - 1) = 0)
    (hsz : cfg.PLAT_SP_IMAGE_NS_BUF_SIZE &&& (cfg.max_granule - 1) = 0)
    (b : Nat)
    (hset : ¬ (b = 0 ∨ b = 2 ∨ b = 4 ∨ b = 12 ∨ b = 14 ∨ b = 15 ∨ b = 16
      ∨ b = 18 ∨ b = 19 ∨ b = 26))
    (hclr : ¬ (b = 1 ∨ b = 9 ∨ b = 24)) :
    ∃ v, (spm_sp_setup cfg plat).sctlr_el1 = some v ∧
      v.testBit b = plat.sctlr_init.testBit b := by
  obtain ⟨-, -, -, hsc, -⟩ := spm_sp_setup_aligned_regs cfg plat hb hsz
  refine ⟨_, hsc, ?_⟩
  rw [sctlr_update_testBit]
  have h1 : sctlr_set_mask.testBit b = false := by
    rw [sctlr_set_mask_testBit]
    simp only [Bool.or_eq_false_iff, decide_eq_false_iff_not]
    omega
  have h2 : sctlr_clear_mask.testBit b = false := by
    rw [sctlr_clear_mask_testBit]
    simp only [Bool.or_eq_false_iff, decide_eq_false_iff_not]
    omega
  rw [h1, h2]
  simp

/-- C8 witness: bit 3 (SA, not among the thirteen toggles) keeps its
initial value at the representative configuration. -/
theorem setup_sctlr_frame_witness :
    cfgW.PLAT_SP_IMAGE_NS_BUF_BASE &&& (cfgW.max_granule - 1) = 0 ∧
    cfgW.PLAT_SP_IMAGE_NS_BUF_SIZE &&& (cfgW.max_granule - 1) = 0 ∧
    ¬ ((3 : Nat) = 0 ∨ (3 : Nat) = 2 ∨ (3 : Nat) = 4 ∨ (3 : Nat) = 12 ∨
       (3 : Nat) = 14 ∨ (3 : Nat) = 15 ∨ (3 : Nat) = 16 ∨ (3 : Nat) = 18 ∨
       (3 : Nat) = 19 ∨ (3 : Nat) = 26) ∧
    ¬ ((3 : Nat) = 1 ∨ (3 : Nat) = 9 ∨ (3 : Nat) = 24) ∧
    (∃ v, (spm_sp_setup cfgW platW).sctlr_el1 = some v ∧
      v.testBit 3 = platW.sctlr_init.testBit 3) :=
  ⟨by decide, by decide, by decide, by decide,
   setup_sctlr_frame cfgW platW (by decide) (by decide) 3 (by decide)
     (by decide)⟩

end Spm
